import Mathlib

/-!
Verification of the PAC-Lead backend (Go) against its natural-language
specification.

The development shallowly embeds the parts of the program that the checked
claims are about:

* the price parser `parsePriceToCents` and its helpers
  (`src/handlers_catalog.go`);
* the in-memory pending-product session store and the pending branch of the
  chat handler (`src/handlers_catalog.go`, `chatHandler`);
* the vision-intake fallback for malformed model replies
  (`src/handlers_catalog.go`, `visionUpload`);
* the webhook-ingestion handler (`src/webhook_wa.go`, `webhookWa`);
* the WhatsApp instance lifecycle handlers with their registry upsert and
  provider mock mode (`src/handlers_resolve.go`, the `wa_instances_api.go`
  section: `waCreateInstance`, `waSetWebhook`, `waInstanceStatus`,
  `waInstanceQR`, `waSendText`, `upsertWAInstance`, `newUAZClient`).

Modelling conventions:

* Go strings are modelled as sequences of characters (`List Char` inside the
  helpers, `String` at the interfaces).  All inputs relevant to the claims are
  ASCII, where Go's byte-based indexing and Unicode-aware helpers coincide
  with the character-based model.
* A Go runtime panic (the only reachable one is the out-of-range slice in
  `parsePriceToCents`) is modelled as the `none` value of an `Option` result.
* Machine integers (`int`, `int64`) are modelled as `Int` with explicit
  clamping where Go's `strconv` clamps; prices fit these ranges trivially.
* Database and network effects are modelled by explicit state passing
  (registry and session maps) plus boolean/inductive parameters describing
  the outcome of the single external call a handler makes.
* `strconv.ParseFloat` is modelled over `ℚ` on its plain decimal fragment
  (optional sign, digits, at most one dot); exponent/hex/inf/nan forms never
  arise from the price inputs covered by the claims and are modelled as parse
  failures.  The two-decimal price values the handlers process are exact in
  both `float64` and `ℚ`, so `int(f*100 + 0.5)` is `⌊q*100 + 1/2⌋`.
-/

/-! ## Go string primitives -/

/-- Whether `pat` is a prefix of `l` (Go `strings.HasPrefix`, used to express
`strings.Contains`, `strings.ReplaceAll` and `strings.Count`). -/
def listStartsWith : List Char → List Char → Bool
  | _, [] => true
  | [], _ :: _ => false
  | c :: cs, p :: ps => c == p && listStartsWith cs ps

/-- Go `strings.Contains` on character sequences. -/
def goContainsSub (l pat : List Char) : Bool :=
  match l with
  | [] => listStartsWith [] pat
  | c :: t => listStartsWith (c :: t) pat || goContainsSub t pat

/-- Go `strings.Count` specialised to the one-character needles this code
uses (for a one-character substring, Go's non-overlapping count is simply the
number of occurrences). -/
def goCount1 (l : List Char) (c : Char) : Nat :=
  l.countP (fun a => a == c)

/-- Go `unicode.IsSpace` restricted to the Latin-1 white space characters
(the only ones arising in the inputs under study). -/
def goIsSpace (c : Char) : Bool :=
  c == ' ' || c == '\t' || c == '\n' || c == '\x0b' || c == '\x0c' ||
    c == '\r' || c == '\x85' || c == '\xa0'

/-- Go `strings.TrimSpace` on character sequences. -/
def goTrimSpace (l : List Char) : List Char :=
  ((l.dropWhile goIsSpace).reverse.dropWhile goIsSpace).reverse

/-- Go `strings.ToLower` on a single character (ASCII case mapping; the
inputs under study contain no non-ASCII cased letters). -/
def goToLowerChar (c : Char) : Char :=
  if 'A' ≤ c ∧ c ≤ 'Z' then Char.ofNat (c.toNat + 32) else c

/-- Go `strings.ToLower` on character sequences. -/
def goToLower (l : List Char) : List Char := l.map goToLowerChar

/-- Recursion core of `goReplaceAll`.  The `fuel` argument only makes the
recursion structural (every call strictly shortens the list, so a fuel of
`l.length` never runs out); it changes nothing about the computed value.
In the recursive case `(c :: t).drop pat.length = t.drop (pat.length - 1)`
because the guard forces `pat ≠ []`. -/
def goReplaceAllAux : Nat → List Char → List Char → List Char → List Char
  | 0, _, _, _ => []
  | _ + 1, [], _, _ => []
  | fuel + 1, c :: t, pat, rep =>
    if pat ≠ [] ∧ listStartsWith (c :: t) pat then
      rep ++ goReplaceAllAux fuel (t.drop (pat.length - 1)) pat rep
    else
      c :: goReplaceAllAux fuel t pat rep

/-- Go `strings.ReplaceAll` for a non-empty pattern: replaces the leftmost
occurrences, non-overlapping.  (The program never calls `ReplaceAll` with an
empty pattern; for an empty pattern this model returns the input unchanged.) -/
def goReplaceAll (l pat rep : List Char) : List Char :=
  goReplaceAllAux l.length l pat rep

/-- The last `n` characters of `l` (for `l.length < n` this is all of `l`);
Go writes `l[len(l)-n:]`, which instead faults when `len(l) < n`: the caller
below models that fault explicitly. -/
def lastChars (n : Nat) (l : List Char) : List Char :=
  l.drop (l.length - n)

/-- Go `strings.TrimRight(s, "/")`. -/
def goTrimRightSlash (s : String) : String :=
  String.mk ((s.data.reverse.dropWhile (fun c => c == '/')).reverse)

/-- `strings.TrimSpace` at the `String` interface. -/
def goTrimS (s : String) : String := String.mk (goTrimSpace s.data)

/-- `strings.ToLower` at the `String` interface. -/
def goToLowerStr (s : String) : String := String.mk (goToLower s.data)

/-- `strings.ReplaceAll` at the `String` interface. -/
def goReplaceAllStr (s pat rep : String) : String :=
  String.mk (goReplaceAll s.data pat.data rep.data)

/-- Go `strings.Join(elems, ", ")` as used by `chatHandler`. -/
def joinComma (tags : List String) : String :=
  String.mk (List.intercalate [',', ' '] (tags.map String.data))

/-! ## Number parsing (`strconv`) -/

/-- All characters are decimal digits. -/
def allDigits (l : List Char) : Bool := l.all Char.isDigit

/-- Decimal value of a digit string. -/
def digitsToNat (l : List Char) : Nat :=
  l.foldl (fun a c => a * 10 + (c.toNat - 48)) 0

/-- Strip an optional leading sign; `true` means negative. -/
def signSplit (l : List Char) : Bool × List Char :=
  match l with
  | '-' :: t => (true, t)
  | '+' :: t => (false, t)
  | _ => (false, l)

/-- Split a character sequence at every `'.'`. -/
def splitOnDot (l : List Char) : List (List Char) :=
  match l with
  | [] => [[]]
  | c :: t =>
    let r := splitOnDot t
    if c = '.' then [] :: r
    else
      match r with
      | [] => [[c]]
      | seg :: rest => (c :: seg) :: rest

/-- The exact value of a parsed decimal string: a signed numerator `num` and
a power-of-ten scale, denoting the rational `num / 10 ^ scale`.  This is an
exact representation of the two-decimal price values the program feeds to
`float64`, avoiding any floating-point rounding concern (see the module
comment). -/
structure DecFloat where
  num : Int
  scale : Nat
deriving DecidableEq

/-- The rational value denoted by a parsed decimal. -/
def DecFloat.toRat (d : DecFloat) : ℚ := (d.num : ℚ) / (10 : ℚ) ^ d.scale

/-- Apply a parsed sign to a numerator. -/
def intSign (neg : Bool) (n : Int) : Int := if neg then -n else n

/-- `strconv.ParseFloat` on its plain decimal fragment, exactly:
an optional sign, then digits with at most one dot and at least one digit.
(See the module comment for the scope of this model.) -/
def goParseFloat (l : List Char) : Option DecFloat :=
  let p := signSplit l
  match splitOnDot p.2 with
  | [ds] =>
    if allDigits ds && !ds.isEmpty then
      some ⟨intSign p.1 (digitsToNat ds : Int), 0⟩
    else none
  | [ds, fs] =>
    if allDigits ds && allDigits fs && (!ds.isEmpty || !fs.isEmpty) then
      some ⟨intSign p.1 (digitsToNat ds * 10 ^ fs.length + digitsToNat fs : Int), fs.length⟩
    else none
  | _ => none

/-- Largest Go `int64`. -/
def int64Max : Int := 9223372036854775807

/-- Smallest Go `int64`. -/
def int64Min : Int := -9223372036854775808

/-- `strconv.ParseInt(s, 10, 64)` before range checking: an optional sign and
a non-empty run of digits. -/
def goParseIntVal (l : List Char) : Option Int :=
  let p := signSplit l
  if allDigits p.2 && !p.2.isEmpty then
    some (if p.1 then -(digitsToNat p.2 : Int) else (digitsToNat p.2 : Int))
  else none

/-- `mustAtoi` from `handlers_catalog.go`: `strconv.Atoi` of the trimmed
string, `0` on a syntax error; on a range error `Atoi` returns the clamped
`int64` value together with the error that `mustAtoi` discards. -/
def mustAtoi (s : String) : Int :=
  match goParseIntVal (goTrimSpace s.data) with
  | none => 0
  | some n => if n > int64Max then int64Max else if n < int64Min then int64Min else n

/-- `parseIntHeader` from `handlers_resolve.go`: trims the header value and
returns the default on an empty value or any `ParseInt` error (syntax or
range). -/
def parseIntHeader (v : String) (dflt : Int) : Int :=
  let t := goTrimS v
  if t = "" then dflt
  else
    match goParseIntVal t.data with
    | none => dflt
    | some n => if n > int64Max ∨ n < int64Min then dflt else n

/-! ## Price parsing (`parsePriceToCents`, `src/handlers_catalog.go:646-669`) -/

/-- The normalisation prefix of `parsePriceToCents`:
`str := TrimSpace(ToLower(s)); str = ReplaceAll(str, "r$", ""); str = TrimSpace(str)`. -/
def priceNormalize (s : String) : List Char :=
  goTrimSpace (goReplaceAll (goTrimSpace (goToLower s.data)) ['r', '$'] [])

/-- The `else` branch of the separator rewrite: if both a comma and a period
occur, commas are removed as thousands separators
(`strings.Count(str, ",") > 0 && strings.Count(str, ".") > 0`). -/
def priceElseNormalize (l : List Char) : List Char :=
  if 0 < goCount1 l ',' ∧ 0 < goCount1 l '.' then goReplaceAll l [','] [] else l

/-- The separator rewrite of `parsePriceToCents`.  `none` models the Go
runtime fault: when the string contains a comma and has fewer than three
characters, `str[len(str)-3:]` panics with a slice-bounds error. -/
def priceRewrite (t : List Char) : Option (List Char) :=
  if goContainsSub t [','] then
    if t.length < 3 then none
    else if goContainsSub (lastChars 3 t) ['.'] then some (priceElseNormalize t)
    else some (goReplaceAll (goReplaceAll t ['.'] []) [','] ['.'])
  else some (priceElseNormalize t)

/-- `cents := int(f*100 + 0.5)` on the exact value `num / 10^scale`, in pure
integer arithmetic so that the definition evaluates in the kernel:
`(200*num + 10^scale) / (2*10^scale)` with floor division.  The lemma
`priceCentsInt_eq_floor` below proves this equal to `⌊value*100 + 1/2⌋`; for
the non-negative values reaching this point, Go's truncation toward zero
agrees with the floor. -/
def priceCentsInt (num : Int) (scale : Nat) : Int :=
  (200 * num + 10 ^ scale) / (2 * 10 ^ scale)

/-- The tail of `parsePriceToCents`: `ParseFloat` then
`cents := int(f*100 + 0.5)` guarded by `err != nil || f < 0` (the value is
negative exactly when the parsed numerator is). -/
def priceFromString (l : List Char) : Option (Int × Bool) :=
  match goParseFloat l with
  | none => some (0, false)
  | some f => if f.num < 0 then some (0, false) else some (priceCentsInt f.num f.scale, true)

/-- `parsePriceToCents` from `src/handlers_catalog.go`.  The result is
`some (cents, ok)` for a normal return and `none` for the runtime panic on a
comma-containing normalised string shorter than three characters. -/
def parsePriceToCents (s : String) : Option (Int × Bool) :=
  match priceRewrite (priceNormalize s) with
  | none => none
  | some u => priceFromString u

/-! ## The price-parsing algorithm as the specification words it

The spec (§4.3, "Price parsing rule") describes the algorithm in words; the
following definitions transcribe those words.  The separator rewrite is
stated totally — the words "the last three characters" are read as "the last
`min 3 (length)` characters" — and the minor-unit conversion is stated over
`ℚ` as "multiply by 100 and add 0.5 before truncation". -/

/-- The separator rewrite as the spec words it: if a comma is present and the
last three characters contain no period, periods are removed and the comma
becomes the decimal point; otherwise, if both comma and period occur, commas
are removed. -/
def priceClaimRewrite (t : List Char) : List Char :=
  if goContainsSub t [','] && !goContainsSub (lastChars 3 t) ['.'] then
    goReplaceAll (goReplaceAll t ['.'] []) [','] ['.']
  else if goContainsSub t [','] && goContainsSub t ['.'] then
    goReplaceAll t [','] []
  else t

/-- The final step as the spec words it: parse as a decimal, fail on parse
errors and negative values, and convert to minor units by multiplying by 100
and adding 0.5 before truncation. -/
def priceFinishClaim (l : List Char) : Option Int :=
  match goParseFloat l with
  | none => none
  | some f => if f.toRat < 0 then none else some ⌊f.toRat * 100 + 1 / 2⌋

/-- The whole price-parsing rule as the specification words it: `none` is a
parse failure, `some c` a price of `c` minor units. -/
def pricePerClaim (s : String) : Option Int :=
  priceFinishClaim (priceClaimRewrite (priceNormalize s))

/-! ## Chat-side helpers (`src/handlers_catalog.go`) -/

/-- `limitRunes` from `src/handlers_catalog.go:635-641`: trims surrounding
white space and keeps at most `max` characters. -/
def limitRunes (s : String) (max : Nat) : String :=
  let rs := goTrimSpace s.data
  if rs.length ≤ max then String.mk rs else String.mk (rs.take max)

/-- `nonEmpty` from `src/handlers_catalog.go:615-620`: `v` if it is not
blank, otherwise `def`. -/
def nonEmpty (v dflt : String) : String :=
  if goTrimS v ≠ "" then v else dflt

/-- `firstNonEmpty` from `src/handlers_catalog.go:623-630`, at the two
arguments `chatHandler` passes: the first value that is not blank, returned
untrimmed. -/
def firstNonEmpty (a b : String) : String :=
  if goTrimS a ≠ "" then a else if goTrimS b ≠ "" then b else ""

/-! ## Pending-product session store (`src/handlers_catalog.go:237-280`) -/

/-- `productSuggest`: the AI-suggested product metadata. -/
structure ProductSuggest where
  title : String
  description : String
  category : String
  tags : List String
deriving DecidableEq

/-- `pendingProduct`: a suggestion awaiting its price, with the owning
tenant and the stored image. -/
structure PendingProduct where
  orgID : Int
  flowID : Int
  imagePath : String
  imageURL : String
  suggest : ProductSuggest
deriving DecidableEq

/-- The `pendBySession` map, modelled extensionally (the `pendMu` mutex only
serialises accesses; each operation below is one critical section). -/
def SessionStore : Type := String → Option PendingProduct

/-- `setPending`: a no-op for the empty session id, otherwise insert or
overwrite. -/
def setPending (store : SessionStore) (session : String) (p : PendingProduct) : SessionStore :=
  if session = "" then store
  else fun k => if k = session then some p else store k

/-- `getPending`: map lookup. -/
def getPending (store : SessionStore) (session : String) : Option PendingProduct :=
  store session

/-- `clearPending`: map delete. -/
def clearPending (store : SessionStore) (session : String) : SessionStore :=
  fun k => if k = session then none else store k

/-! ## The pending branch of `chatHandler` (`src/handlers_catalog.go:332-402`) -/

/-- The row the pending branch hands to
`INSERT INTO products (org_id, flow_id, title, slug, status, image_base64,
price_cents, stock, category)`. -/
structure CatalogInsert where
  orgID : Int
  flowID : Int
  title : String
  slug : String
  status : String
  imageBase64 : String
  priceCents : Int
  stock : Int
  category : String
deriving DecidableEq

/-- The tenant-resolution chain of the pending branch
(`src/handlers_catalog.go:335-348`): the header value if positive, else the
pending session's value if positive, else `1`. -/
def resolveTenant (header fallbackID : Int) : Int :=
  let a := if header ≤ 0 then fallbackID else header
  if a ≤ 0 then 1 else a

/-- How the pending branch of `chatHandler` ends. -/
inductive ChatOutcome where
  | noPending
  | committed (row : CatalogInsert)
  | promptPrice
  | dbInsertError
  | panicked
deriving DecidableEq

/-- Result of one run of the pending branch: the HTTP-level outcome, the
session store afterwards, and the catalog rows successfully inserted. -/
structure ChatStepResult where
  outcome : ChatOutcome
  sessions : SessionStore
  inserted : List CatalogInsert

/-- The pending branch of `chatHandler` (`src/handlers_catalog.go:332-402`).
`msg` is the already-trimmed message, `hOrg`/`hFlow` the raw
`X-Org-ID`/`X-Flow-ID` header values, and `dbOk` the outcome of the single
`INSERT ... RETURNING` round trip.  A `none` from the price parser is the
modelled runtime panic and aborts the handler.  On a failed insert the
handler returns a 500 without touching the session; only a successful insert
clears the pending entry. -/
def chatPendingStep (store : SessionStore) (sessionID msg hOrg hFlow : String)
    (dbOk : Bool) : ChatStepResult :=
  match getPending store sessionID with
  | none => ⟨ChatOutcome.noPending, store, []⟩
  | some p =>
    match parsePriceToCents msg with
    | none => ⟨ChatOutcome.panicked, store, []⟩
    | some (cents, okp) =>
      if okp then
        let orgID := resolveTenant (mustAtoi (goTrimS hOrg)) p.orgID
        let flowID := resolveTenant (mustAtoi (goTrimS hFlow)) p.flowID
        let slug := firstNonEmpty p.suggest.description (joinComma p.suggest.tags)
        let row : CatalogInsert :=
          ⟨orgID, flowID, limitRunes p.suggest.title 60, limitRunes slug 300, "active",
           p.imageURL, cents, 0, limitRunes p.suggest.category 80⟩
        if dbOk then ⟨ChatOutcome.committed row, clearPending store sessionID, [row]⟩
        else ⟨ChatOutcome.dbInsertError, store, []⟩
      else ⟨ChatOutcome.promptPrice, store, []⟩

/-! ## Vision-intake fallback (`src/handlers_catalog.go:516-525`) -/

/-- The defensive fallback of `visionUpload` applied to the result of
unmarshalling the model's reply: `unmarshalErr` is whether `json.Unmarshal`
returned an error, `sug` the (possibly partially filled) struct it left
behind, and `nameHint` the trimmed `prompt` form value.  When the reply
failed to decode or decoded with a blank title, the title and description
are overwritten and the category defaults to "Geral" only if it is empty. -/
def visionSuggestFallback (unmarshalErr : Bool) (sug : ProductSuggest)
    (nameHint : String) : ProductSuggest :=
  if unmarshalErr || goTrimS sug.title == "" then
    ⟨nonEmpty nameHint "Produto", "Produto cadastrado automaticamente.",
     if sug.category == "" then "Geral" else sug.category, sug.tags⟩
  else sug

/-! ## Webhook ingestion (`src/webhook_wa.go:32-102`) -/

/-- The row `lookupInstanceInfo` scans (token, org and flow as text). -/
structure WaInstanceInfo where
  token : String
  orgID : String
  flowID : String
deriving DecidableEq

/-- Outcome of the registry lookup performed by the ingestion handler:
a hit, a miss (`sql.ErrNoRows`), or any other database error. -/
inductive RegistryLookup where
  | found (info : WaInstanceInfo)
  | noRows
  | dbError
deriving DecidableEq

/-- An HTTP status line plus body, as the handler writes it. -/
structure HttpResponse where
  status : Nat
  body : String
deriving DecidableEq

/-- The headers the ingestion handler attaches to the forwarded request. -/
structure ForwardHeaders where
  instanceID : String
  instanceToken : Option String
  orgID : Option String
  flowID : Option String
deriving DecidableEq

/-- The instance info the handler works with: the scanned row on a hit, the
zero value on a miss or error (`lookupInstanceInfo` returns the zero struct
whenever `Scan` fails, and the handler only logs non-`ErrNoRows` errors). -/
def lookupResultInfo : RegistryLookup → WaInstanceInfo
  | RegistryLookup.found i => i
  | RegistryLookup.noRows => ⟨"", "", ""⟩
  | RegistryLookup.dbError => ⟨"", "", ""⟩

/-- `webhookWa` from `src/webhook_wa.go:32-102`.  `readOk` is whether the
request body could be read, `logOk` the outcome of the audit-log insert
(discarded by the code), `lookup` the registry lookup outcome, `buildOk`
whether `http.NewRequest` succeeded, and `forwardOk` whether the outbound
call to the agent backend succeeded.  The second component is the forwarded
request's tenant headers when one was sent.  (The forward target URL —
agent base plus the escaped instance segment — does not influence the
response and is not modelled.) -/
def webhookWa (inst : String) (readOk logOk : Bool) (lookup : RegistryLookup)
    (buildOk forwardOk : Bool) : HttpResponse × Option ForwardHeaders :=
  if inst = "" then (⟨400, "missing instance"⟩, none)
  else if !readOk then (⟨400, "read error"⟩, none)
  else
    let info := lookupResultInfo lookup
    if !buildOk then (⟨202, ""⟩, none)
    else
      let hdrs : ForwardHeaders :=
        ⟨inst,
         if info.token ≠ "" then some info.token else none,
         if info.orgID ≠ "" then some info.orgID else none,
         if info.flowID ≠ "" then some info.flowID else none⟩
      if !forwardOk then (⟨202, ""⟩, some hdrs)
      else (⟨202, ""⟩, some hdrs)

/-! ## WhatsApp instance registry and handlers
(`src/handlers_resolve.go`, `wa_instances_api.go` section) -/

/-- A `public.wa_instances` row. -/
structure WaRow where
  token : String
  orgID : Int
  flowID : Int
  webhookURL : Option String
deriving DecidableEq

/-- The instance registry keyed by `instance_id`. -/
def WaRegistry : Type := String → Option WaRow

/-- `upsertWAInstance` (`src/handlers_resolve.go:257-270`): insert or update
keyed by instance id; `NULLIF($5,'')` plus `COALESCE` keep the existing
webhook URL when the new value is empty. -/
def upsertWAInstance (reg : WaRegistry) (instanceID token : String)
    (orgID flowID : Int) (webhookURL : String) : WaRegistry :=
  fun k =>
    if k = instanceID then
      some ⟨token, orgID, flowID,
        match reg instanceID with
        | none => if webhookURL = "" then none else some webhookURL
        | some old => if webhookURL = "" then old.webhookURL else some webhookURL⟩
    else reg k

/-- The base URL of `newUAZClient` (`src/handlers_resolve.go:127-145`):
the `UAZAPI_BASE` environment value with trailing slashes trimmed. -/
def uazBase (baseEnv : String) : String := goTrimRightSlash baseEnv

/-- `uazClient.configured` (`src/handlers_resolve.go:147`). -/
def uazConfigured (baseEnv : String) : Bool := uazBase baseEnv != ""

/-- Result of `waSetWebhook`: response status, registry afterwards, and
whether the provider was contacted. -/
structure WaSetWebhookResult where
  status : Nat
  registry : WaRegistry
  providerCalled : Bool

/-- `waSetWebhook` (`src/handlers_resolve.go:466-503`).  `urlField` and
`tokenField` are the `fmt.Sprint`ed `url`/`token` body fields.  The registry
upsert happens before the provider is contacted and its error is discarded;
unconfigured mode answers success without a provider call; a transport
failure of the provider call (`providerOk = false`) is a 502, while a
provider error status is passed through as a 200 with the decoded body. -/
def waSetWebhook (reg : WaRegistry) (inst : String) (decodeOk : Bool)
    (urlField tokenField hOrg hFlow baseEnv : String) (providerOk : Bool) :
    WaSetWebhookResult :=
  if goTrimS inst = "" then ⟨400, reg, false⟩
  else if !decodeOk then ⟨400, reg, false⟩
  else
    let webhookURL := goTrimS urlField
    let token := goTrimS tokenField
    let reg1 := upsertWAInstance reg inst token
      (parseIntHeader hOrg 1) (parseIntHeader hFlow 1) webhookURL
    if !uazConfigured baseEnv then ⟨200, reg1, false⟩
    else if !providerOk then ⟨502, reg1, true⟩
    else ⟨200, reg1, true⟩

/-- Result of `waCreateInstance`: response status, registry afterwards,
whether the provider was contacted, and the identifiers and connect payload
fields returned to the caller. -/
structure WaCreateResult where
  status : Nat
  registry : WaRegistry
  providerCalled : Bool
  instanceId : String
  token : String
  connectStatus : String
  connectQr : String

/-- `waCreateInstance` (`src/handlers_resolve.go:277-350`).  `rand6`,
`rand32` and `rand4` stand for the `randToken` draws; `providerInstanceId`
and `providerToken` are the best-effort extractions (`pickStr`) from the
provider's response when one is made.  With no configured base URL the
handler makes no provider call: it synthesises the instance id (lower-cased
name with spaces dashed, plus the random suffix), draws a random token,
upserts the registry row, and answers 201 with a `waiting-qr` connect
payload carrying the placeholder QR marker. -/
def waCreateInstance (reg : WaRegistry) (decodeOk : Bool)
    (name hOrg hFlow baseEnv rand6 rand32 : String) (providerOk : Bool)
    (providerInstanceId providerToken rand4 : String) : WaCreateResult :=
  if !decodeOk || goTrimS name = "" then ⟨400, reg, false, "", "", "", ""⟩
  else
    let orgID := parseIntHeader hOrg 1
    let flowID := parseIntHeader hFlow 1
    if !uazConfigured baseEnv then
      let inst := goToLowerStr (goReplaceAllStr name " " "-") ++ "-" ++ rand6
      let reg1 := upsertWAInstance reg inst rand32 orgID flowID ""
      ⟨201, reg1, false, inst, rand32, "waiting-qr", "UAZAPI_MOCK_" ++ inst⟩
    else if !providerOk then ⟨502, reg, true, "", "", "", ""⟩
    else
      let instanceID :=
        if providerInstanceId ≠ "" then providerInstanceId
        else goToLowerStr (goReplaceAllStr name " " "-") ++ "-" ++ rand4
      let reg1 :=
        if providerToken ≠ "" then
          upsertWAInstance reg instanceID providerToken orgID flowID ""
        else reg
      ⟨201, reg1, true, instanceID, providerToken, "", ""⟩

/-- `waInstanceStatus` (`src/handlers_resolve.go:353-407`): status code and
whether the provider was contacted.  Unconfigured mode answers the
deterministic `waiting-qr` payload without any provider call. -/
def waInstanceStatus (inst tokenQ baseEnv : String) (providerOk : Bool) : Nat × Bool :=
  if goTrimS inst = "" then (400, false)
  else if !uazConfigured baseEnv then (200, false)
  else if !providerOk then (502, true)
  else (200, true)

/-- `waInstanceQR` (`src/handlers_resolve.go:410-463`): status code and
whether the provider was contacted.  Unconfigured mode answers the mock QR
payload; configured mode tries the two provider paths and always ends in a
200 (first 2xx body, else last body, else the `waiting-qr` placeholder). -/
def waInstanceQR (inst tokenQ baseEnv : String) (anySuccess : Bool) : Nat × Bool :=
  if goTrimS inst = "" then (400, false)
  else if !uazConfigured baseEnv then (200, false)
  else (200, true)

/-- `waSendText` (`src/handlers_resolve.go:506-563`): status code and
whether the provider was contacted.  Unconfigured mode answers a marked mock
success without a provider call; in configured mode a transport failure is a
502 and a provider status of 400 or above becomes a 503. -/
def waSendText (inst : String) (decodeOk : Bool)
    (toField textField tokenField baseEnv : String) (providerOk : Bool)
    (providerStatus : Nat) : Nat × Bool :=
  if goTrimS inst = "" then (400, false)
  else if !decodeOk then (400, false)
  else if goTrimS toField = "" || goTrimS textField = "" then (400, false)
  else if !uazConfigured baseEnv then (200, false)
  else if !providerOk then (502, true)
  else if providerStatus ≥ 400 then (503, true)
  else (200, true)

/-! ## Concrete inputs shared by the witnesses -/

/-- The empty session store. -/
def emptySessions : SessionStore := fun _ => none

/-- The empty instance registry. -/
def emptyWaRegistry : WaRegistry := fun _ => none

/-- A sample pending product. -/
def samplePending : PendingProduct :=
  ⟨7, 8, "uploads/prod_1.png", "/uploads/prod_1.png",
   ⟨"Copo de vidro", "Copo de vidro 300ml", "Cozinha", ["copo", "vidro"]⟩⟩

/-! ## Bridging lemmas -/

/-- The integer-arithmetic minor-unit conversion computes exactly
`⌊value * 100 + 1/2⌋` of the parsed decimal value. -/
theorem priceCentsInt_eq_floor (num : Int) (s : Nat) :
    priceCentsInt num s = ⌊((num : ℚ) / (10 : ℚ) ^ s) * 100 + 1 / 2⌋ := by
  have h10 : ((10 : ℚ) ^ s) ≠ 0 := by positivity
  have key : ((num : ℚ) / (10 : ℚ) ^ s) * 100 + 1 / 2
      = (((200 * num + 10 ^ s : ℤ) : ℚ)) / (((2 * 10 ^ s : ℕ) : ℚ)) := by
    push_cast
    field_simp
    ring
  rw [key, Rat.floor_intCast_div_natCast]
  unfold priceCentsInt
  push_cast
  rfl

/-- The parsed value is negative exactly when its numerator is. -/
theorem DecFloat.toRat_neg_iff (d : DecFloat) : d.toRat < 0 ↔ d.num < 0 := by
  have hb : (0 : ℚ) < (10 : ℚ) ^ d.scale := by positivity
  unfold DecFloat.toRat
  rw [div_neg_iff]
  constructor
  · rintro (⟨_, h⟩ | ⟨h, _⟩)
    · exact absurd h (not_lt.mpr hb.le)
    · exact_mod_cast h
  · intro h
    exact Or.inr ⟨by exact_mod_cast h, hb⟩

/-- The integer tail of `parsePriceToCents` agrees with the specification's
rational formulation pointwise. -/
theorem priceFromString_agrees (u : List Char) :
    priceFromString u =
      (match priceFinishClaim u with
       | none => some (0, false)
       | some c => some (c, true)) := by
  unfold priceFromString priceFinishClaim
  cases hf : goParseFloat u with
  | none => rfl
  | some f =>
    by_cases hn : f.num < 0
    · simp [hn, (DecFloat.toRat_neg_iff f).mpr hn]
    · have hnr : ¬ f.toRat < 0 := fun hc => hn ((DecFloat.toRat_neg_iff f).mp hc)
      rw [DecFloat.toRat] at hnr
      simp [hn, hnr, priceCentsInt_eq_floor, DecFloat.toRat]

/-- Containment of a one-character pattern is membership. -/
theorem goContainsSub_single_iff_mem (l : List Char) (c : Char) :
    goContainsSub l [c] = true ↔ c ∈ l := by
  induction l with
  | nil => simp [goContainsSub, listStartsWith]
  | cons a t ih =>
    simp [goContainsSub, listStartsWith, ih, List.mem_cons]
    constructor
    · rintro (h | h)
      · exact Or.inl h.symm
      · exact Or.inr h
    · rintro (h | h)
      · exact Or.inl h.symm
      · exact Or.inr h

/-- A positive one-character count is membership. -/
theorem goCount1_pos_iff_mem (l : List Char) (c : Char) :
    0 < goCount1 l c ↔ c ∈ l := by
  unfold goCount1
  rw [List.countP_pos_iff]
  simp

/-- Containment survives undropping. -/
theorem goContainsSub_of_drop (n : Nat) (l pat : List Char)
    (h : goContainsSub (List.drop n l) pat = true) : goContainsSub l pat = true := by
  induction l generalizing n with
  | nil => simpa using h
  | cons a t ih =>
    cases n with
    | zero => simpa using h
    | succ m =>
      have ht : goContainsSub t pat = true := ih m (by simpa using h)
      unfold goContainsSub
      simp [ht]

/-- Under the guard that excludes the faulting slice — no comma, or at least
three characters — the separator rewrite of the code agrees with the
specification's total reading. -/
theorem priceRewrite_agrees (t : List Char)
    (h : goContainsSub t [','] = false ∨ 3 ≤ t.length) :
    priceRewrite t = some (priceClaimRewrite t) := by
  unfold priceRewrite priceClaimRewrite priceElseNormalize
  by_cases hc : goContainsSub t [','] = true
  · have hlen : ¬ t.length < 3 := by
      rcases h with h | h
      · rw [hc] at h; cases h
      · omega
    by_cases hd : goContainsSub (lastChars 3 t) ['.'] = true
    · have hdt : goContainsSub t ['.'] = true := goContainsSub_of_drop _ _ _ hd
      have hc1 : 0 < goCount1 t ',' :=
        (goCount1_pos_iff_mem t ',').mpr ((goContainsSub_single_iff_mem t ',').mp hc)
      have hc2 : 0 < goCount1 t '.' :=
        (goCount1_pos_iff_mem t '.').mpr ((goContainsSub_single_iff_mem t '.').mp hdt)
      simp [hc, hd, hdt, hlen, hc1, hc2]
    · have hd' : goContainsSub (lastChars 3 t) ['.'] = false := by
        simpa using hd
      simp [hc, hd', hlen]
  · have hcf : goContainsSub t [','] = false := by simpa using hc
    have hnc : ¬ 0 < goCount1 t ',' := by
      intro hpos
      have hm := (goCount1_pos_iff_mem t ',').mp hpos
      rw [(goContainsSub_single_iff_mem t ',').mpr hm] at hcf
      cases hcf
    simp [hcf, hnc]

/-! ## Claims -/

/-- C1: the price parser follows exactly the spec's algorithm — strip the
currency marker and whitespace; with a comma present and no period among the
last three characters, drop periods and turn the comma into the decimal
point; otherwise with both comma and period present, drop commas; parse as a
non-negative decimal and convert to minor units via `⌊value*100 + 1/2⌋` —
and in particular maps "129,90" to 12990, "1.234,56" to 123456, "129.90" to
12990, "R$ 12,34" to 1234, and fails on "abc".  (The guard keeps the
equivalence statement on the inputs where the code does not hit the slice
fault settled by C10.) -/
theorem C1_price_parser_follows_spec (s : String)
    (h : goContainsSub (priceNormalize s) [','] = false ∨ 3 ≤ (priceNormalize s).length) :
    (parsePriceToCents s =
      match pricePerClaim s with
      | none => some (0, false)
      | some c => some (c, true))
    ∧ parsePriceToCents "129,90" = some (12990, true)
    ∧ parsePriceToCents "1.234,56" = some (123456, true)
    ∧ parsePriceToCents "129.90" = some (12990, true)
    ∧ parsePriceToCents "R$ 12,34" = some (1234, true)
    ∧ parsePriceToCents "abc" = some (0, false) := by
  refine ⟨?_, by decide, by decide, by decide, by decide, by decide⟩
  unfold parsePriceToCents pricePerClaim
  rw [priceRewrite_agrees (priceNormalize s) h]
  exact priceFromString_agrees _

/-- Witness for C1 at the concrete input "129,90". -/
theorem C1_price_parser_follows_spec_witness :
    (goContainsSub (priceNormalize "129,90") [','] = false
      ∨ 3 ≤ (priceNormalize "129,90").length)
    ∧ (parsePriceToCents "129,90" =
        match pricePerClaim "129,90" with
        | none => some (0, false)
        | some c => some (c, true)) :=
  ⟨Or.inr (by decide), (C1_price_parser_follows_spec "129,90" (Or.inr (by decide))).1⟩

/-- C10: evaluation of the code at the failing input.  On "1," — whose
normalised form contains a comma but has fewer than three characters — the
Go function evaluates `str[len(str)-3:]` with a negative lower bound and
panics; the model returns the fault marker `none` instead of a
`(cents, ok)` pair, refuting totality as claimed.  A well-formed comma input
parses normally. -/
theorem C10_price_parser_faults_on_short_comma_input :
    parsePriceToCents "1," = none ∧ parsePriceToCents "12,34" = some (1234, true) := by
  decide

/-- C2: for every non-empty session id, opening a pending session and then
committing it with a parser-accepted price string performs exactly one
catalog insert and removes the pending entry for that id (given the insert
succeeds). -/
theorem C2_open_then_commit (store : SessionStore) (s msg hOrg hFlow : String)
    (p : PendingProduct) (c : Int) (hs : s ≠ "")
    (hp : parsePriceToCents msg = some (c, true)) :
    (chatPendingStep (setPending store s p) s msg hOrg hFlow true).inserted.length = 1
    ∧ (chatPendingStep (setPending store s p) s msg hOrg hFlow true).sessions s = none := by
  have hget : getPending (setPending store s p) s = some p := by
    unfold getPending setPending
    simp [hs]
  unfold chatPendingStep
  rw [hget, hp]
  simp [clearPending]

/-- Witness for C2 at a concrete store, session id and price message. -/
theorem C2_open_then_commit_witness :
    (("s1" : String) ≠ "" ∧ parsePriceToCents "129,90" = some (12990, true))
    ∧ ((chatPendingStep (setPending emptySessions "s1" samplePending) "s1" "129,90" "" "" true).inserted.length = 1
       ∧ (chatPendingStep (setPending emptySessions "s1" samplePending) "s1" "129,90" "" "" true).sessions "s1" = none) :=
  ⟨⟨by decide, by decide⟩,
   C2_open_then_commit emptySessions "s1" "129,90" "" "" samplePending 12990
     (by decide) (by decide)⟩

/-- C4: with a pending session open, a price string the parser rejects
commits nothing — the handler answers the re-prompt, no catalog row is
inserted, and the session store (in particular the pending entry for that
id) is exactly unchanged. -/
theorem C4_reject_leaves_session_intact (store : SessionStore)
    (s msg hOrg hFlow : String) (p : PendingProduct) (c : Int) (dbOk : Bool)
    (hs : getPending store s = some p)
    (hp : parsePriceToCents msg = some (c, false)) :
    (chatPendingStep store s msg hOrg hFlow dbOk).outcome = ChatOutcome.promptPrice
    ∧ (chatPendingStep store s msg hOrg hFlow dbOk).sessions = store
    ∧ (chatPendingStep store s msg hOrg hFlow dbOk).sessions s = some p
    ∧ (chatPendingStep store s msg hOrg hFlow dbOk).inserted = [] := by
  unfold chatPendingStep
  rw [hs, hp]
  refine ⟨rfl, rfl, ?_, rfl⟩
  exact hs

/-- Witness for C4 at a concrete open session and the rejected input "abc". -/
theorem C4_reject_leaves_session_intact_witness :
    (getPending (setPending emptySessions "s1" samplePending) "s1" = some samplePending
      ∧ parsePriceToCents "abc" = some (0, false))
    ∧ ((chatPendingStep (setPending emptySessions "s1" samplePending) "s1" "abc" "" "" true).outcome = ChatOutcome.promptPrice
       ∧ (chatPendingStep (setPending emptySessions "s1" samplePending) "s1" "abc" "" "" true).sessions "s1" = some samplePending
       ∧ (chatPendingStep (setPending emptySessions "s1" samplePending) "s1" "abc" "" "" true).inserted = []) := by
  have h := C4_reject_leaves_session_intact (setPending emptySessions "s1" samplePending)
    "s1" "abc" "" "" samplePending 0 true (by decide) (by decide)
  exact ⟨⟨by decide, by decide⟩, h.1, h.2.2.1, h.2.2.2⟩

/-- C9: with a pending session open and a parseable price, a failed catalog
insert leaves the handler reporting a server error, inserts no row, and does
not clear the pending entry — the same session can be committed again. -/
theorem C9_insert_failure_keeps_session (store : SessionStore)
    (s msg hOrg hFlow : String) (p : PendingProduct) (c : Int)
    (hs : getPending store s = some p)
    (hp : parsePriceToCents msg = some (c, true)) :
    (chatPendingStep store s msg hOrg hFlow false).outcome = ChatOutcome.dbInsertError
    ∧ (chatPendingStep store s msg hOrg hFlow false).sessions = store
    ∧ (chatPendingStep store s msg hOrg hFlow false).sessions s = some p
    ∧ (chatPendingStep store s msg hOrg hFlow false).inserted = [] := by
  unfold chatPendingStep
  rw [hs, hp]
  refine ⟨rfl, rfl, ?_, rfl⟩
  exact hs

/-- Witness for C9 at a concrete open session with a failing insert. -/
theorem C9_insert_failure_keeps_session_witness :
    (getPending (setPending emptySessions "s1" samplePending) "s1" = some samplePending
      ∧ parsePriceToCents "129,90" = some (12990, true))
    ∧ ((chatPendingStep (setPending emptySessions "s1" samplePending) "s1" "129,90" "" "" false).outcome = ChatOutcome.dbInsertError
       ∧ (chatPendingStep (setPending emptySessions "s1" samplePending) "s1" "129,90" "" "" false).sessions "s1" = some samplePending
       ∧ (chatPendingStep (setPending emptySessions "s1" samplePending) "s1" "129,90" "" "" false).inserted = []) := by
  have h := C9_insert_failure_keeps_session (setPending emptySessions "s1" samplePending)
    "s1" "129,90" "" "" samplePending 12990 (by decide) (by decide)
  exact ⟨⟨by decide, by decide⟩, h.1, h.2.2.1, h.2.2.2⟩

/-- C5 counterexample: the committed row's tenant is not always the
session's tenant.  With the pending session owned by org 7 / flow 8 but the
commit request carrying headers `X-Org-ID: 42` and `X-Flow-ID: 43`, the
inserted row is keyed to tenant 42/43, not to the session's 7/8: the header
tenant takes precedence over the session's. -/
theorem C5_counterexample_header_tenant_wins :
    ((chatPendingStep (setPending emptySessions "s5" samplePending) "s5" "129,90" "42" "43" true).inserted.map
        CatalogInsert.orgID = [42])
    ∧ ((chatPendingStep (setPending emptySessions "s5" samplePending) "s5" "129,90" "42" "43" true).inserted.map
        CatalogInsert.flowID = [43])
    ∧ samplePending.orgID = 7 ∧ samplePending.flowID = 8
    ∧ (42 : Int) ≠ 7 ∧ (43 : Int) ≠ 8 := by
  decide

/-- C5 as amended: on a successful parse the pending branch inserts exactly
one row whose tenant is the positive header-supplied tenant when present,
and otherwise the session's tenant (defaulting to 1 when neither is
positive); whose title is the suggested title trimmed and truncated to 60
characters; whose slug is derived from the suggested description or, if
blank, the comma-joined tag list, trimmed and truncated to 300 characters;
whose image reference is the stored image URL; whose price is the parsed
minor units; whose stock is zero; and whose category is the suggested
category trimmed and truncated to 80 characters. -/
theorem C5_amended_committed_row_fields (store : SessionStore)
    (s msg hOrg hFlow : String) (p : PendingProduct) (c : Int)
    (hs : getPending store s = some p)
    (hp : parsePriceToCents msg = some (c, true)) :
    (chatPendingStep store s msg hOrg hFlow true).inserted =
      [⟨resolveTenant (mustAtoi (goTrimS hOrg)) p.orgID,
        resolveTenant (mustAtoi (goTrimS hFlow)) p.flowID,
        limitRunes p.suggest.title 60,
        limitRunes (firstNonEmpty p.suggest.description (joinComma p.suggest.tags)) 300,
        "active", p.imageURL, c, 0, limitRunes p.suggest.category 80⟩] := by
  unfold chatPendingStep
  rw [hs, hp]
  rfl

/-- Witness for the amended C5 at a concrete session and headers. -/
theorem C5_amended_committed_row_fields_witness :
    (getPending (setPending emptySessions "s5" samplePending) "s5" = some samplePending
      ∧ parsePriceToCents "129,90" = some (12990, true))
    ∧ (chatPendingStep (setPending emptySessions "s5" samplePending) "s5" "129,90" "42" "43" true).inserted =
      [⟨resolveTenant (mustAtoi (goTrimS "42")) samplePending.orgID,
        resolveTenant (mustAtoi (goTrimS "43")) samplePending.flowID,
        limitRunes samplePending.suggest.title 60,
        limitRunes (firstNonEmpty samplePending.suggest.description (joinComma samplePending.suggest.tags)) 300,
        "active", samplePending.imageURL, 12990, 0,
        limitRunes samplePending.suggest.category 80⟩] :=
  ⟨⟨by decide, by decide⟩,
   C5_amended_committed_row_fields (setPending emptySessions "s5" samplePending)
     "s5" "129,90" "42" "43" samplePending 12990 (by decide) (by decide)⟩

/-- C8 counterexample: the fallback does not always carry category "Geral".
When the model reply parses but has a blank title and a non-empty category
("Eletronicos"), the substituted suggestion keeps that category instead of
"Geral" (while the title and description are replaced as claimed). -/
theorem C8_counterexample_category_kept :
    (visionSuggestFallback false ⟨"", "Fone sem fio", "Eletronicos", []⟩ "").category = "Eletronicos"
    ∧ (visionSuggestFallback false ⟨"", "Fone sem fio", "Eletronicos", []⟩ "").title = "Produto"
    ∧ ("Eletronicos" : String) ≠ "Geral" := by
  decide

/-- C8 as amended: whenever the model reply fails to decode or decodes with
a blank title, Vision Intake substitutes the deterministic fallback — title
from the hint or "Produto", the generic description, and category "Geral"
only when the decoded category is empty, the decoded category otherwise
(tags are kept) — and this substitution is total, so the pipeline never
fails on account of malformed model text. -/
theorem C8_amended_fallback_suggestion (err : Bool) (sug : ProductSuggest) (hint : String)
    (h : err = true ∨ goTrimS sug.title = "") :
    visionSuggestFallback err sug hint =
      ⟨nonEmpty hint "Produto", "Produto cadastrado automaticamente.",
       if sug.category = "" then "Geral" else sug.category, sug.tags⟩ := by
  unfold visionSuggestFallback
  rcases h with h | h
  · subst h
    simp
  · simp [h]

/-- Witness for the amended C8 at a concrete blank-title decode. -/
theorem C8_amended_fallback_suggestion_witness :
    (false = true ∨ goTrimS (ProductSuggest.title ⟨"", "Fone sem fio", "Eletronicos", []⟩) = "")
    ∧ visionSuggestFallback false ⟨"", "Fone sem fio", "Eletronicos", []⟩ "" =
      ⟨nonEmpty "" "Produto", "Produto cadastrado automaticamente.",
       if (ProductSuggest.category ⟨"", "Fone sem fio", "Eletronicos", []⟩) = "" then "Geral"
       else ProductSuggest.category ⟨"", "Fone sem fio", "Eletronicos", []⟩,
       ProductSuggest.tags ⟨"", "Fone sem fio", "Eletronicos", []⟩⟩ :=
  ⟨Or.inr (by decide),
   C8_amended_fallback_suggestion false ⟨"", "Fone sem fio", "Eletronicos", []⟩ "" (Or.inr (by decide))⟩

/-- C3: every request to the webhook-ingestion handler with a non-empty
instance path parameter (and a readable body) is answered with the identical
202 Accepted response — whether the registry lookup hits, misses, or errors,
whether the forwarding request can be built, whether the forwarding call
succeeds, and whether the audit-log insert succeeds. -/
theorem C3_ingest_always_accepts (inst : String) (logOk : Bool)
    (lookup : RegistryLookup) (buildOk forwardOk : Bool) (h : inst ≠ "") :
    (webhookWa inst true logOk lookup buildOk forwardOk).1 = ⟨202, ""⟩ := by
  unfold webhookWa
  cases buildOk <;> cases forwardOk <;> simp [h]

/-- Witness for C3 at a concrete instance with lookup miss, failed build and
failed forward, and a failed audit log. -/
theorem C3_ingest_always_accepts_witness :
    ("inst-1" : String) ≠ ""
    ∧ (webhookWa "inst-1" true false RegistryLookup.noRows false false).1 = ⟨202, ""⟩ :=
  ⟨by decide, C3_ingest_always_accepts "inst-1" false RegistryLookup.noRows false false (by decide)⟩

/-- C6: with a configured provider, `waSetWebhook` upserts the requested
webhook URL into the local registry before the provider call, so even when
the provider registration fails (the handler then answers 502) the registry
row for the instance carries the requested URL. -/
theorem C6_webhook_persisted_despite_provider_failure (reg : WaRegistry)
    (inst urlField tokenField hOrg hFlow baseEnv : String)
    (hinst : goTrimS inst ≠ "") (hurl : goTrimS urlField ≠ "")
    (hconf : uazConfigured baseEnv = true) :
    (waSetWebhook reg inst true urlField tokenField hOrg hFlow baseEnv false).status = 502
    ∧ ((waSetWebhook reg inst true urlField tokenField hOrg hFlow baseEnv false).registry inst).map
        WaRow.webhookURL = some (some (goTrimS urlField)) := by
  unfold waSetWebhook upsertWAInstance
  cases hreg : reg inst <;> simp [hinst, hconf, hreg, hurl]

/-- Witness for C6 at a concrete instance, URL and configured base. -/
theorem C6_webhook_persisted_despite_provider_failure_witness :
    (goTrimS "inst-1" ≠ "" ∧ goTrimS "https://example.com/hook" ≠ ""
      ∧ uazConfigured "https://uaz.example" = true)
    ∧ ((waSetWebhook emptyWaRegistry "inst-1" true "https://example.com/hook" "tok-1" "" "" "https://uaz.example" false).status = 502
       ∧ ((waSetWebhook emptyWaRegistry "inst-1" true "https://example.com/hook" "tok-1" "" "" "https://uaz.example" false).registry "inst-1").map
           WaRow.webhookURL = some (some (goTrimS "https://example.com/hook"))) :=
  ⟨⟨by decide, by decide, by decide⟩,
   C6_webhook_persisted_despite_provider_failure emptyWaRegistry "inst-1"
     "https://example.com/hook" "tok-1" "" "" "https://uaz.example"
     (by decide) (by decide) (by decide)⟩

/-- With no configured base URL, `waSetWebhook` never contacts the provider. -/
theorem waSetWebhook_mock_no_provider (reg : WaRegistry) (inst : String)
    (decodeOk : Bool) (urlField tokenField hOrg hFlow baseEnv : String)
    (pOk : Bool) (hbase : uazConfigured baseEnv = false) :
    (waSetWebhook reg inst decodeOk urlField tokenField hOrg hFlow baseEnv pOk).providerCalled = false := by
  unfold waSetWebhook
  split
  · rfl
  · split
    · rfl
    · simp [hbase]

/-- With no configured base URL, `waInstanceStatus` never contacts the
provider. -/
theorem waInstanceStatus_mock_no_provider (inst tokenQ baseEnv : String)
    (pOk : Bool) (hbase : uazConfigured baseEnv = false) :
    (waInstanceStatus inst tokenQ baseEnv pOk).2 = false := by
  unfold waInstanceStatus
  split
  · rfl
  · simp [hbase]

/-- With no configured base URL, `waInstanceQR` never contacts the
provider. -/
theorem waInstanceQR_mock_no_provider (inst tokenQ baseEnv : String)
    (qOk : Bool) (hbase : uazConfigured baseEnv = false) :
    (waInstanceQR inst tokenQ baseEnv qOk).2 = false := by
  unfold waInstanceQR
  split
  · rfl
  · simp [hbase]

/-- With no configured base URL, `waSendText` never contacts the provider. -/
theorem waSendText_mock_no_provider (inst : String) (decodeOk : Bool)
    (toField textField tokenField baseEnv : String) (pOk : Bool) (pst : Nat)
    (hbase : uazConfigured baseEnv = false) :
    (waSendText inst decodeOk toField textField tokenField baseEnv pOk pst).2 = false := by
  unfold waSendText
  split
  · rfl
  · split
    · rfl
    · split
      · rfl
      · simp [hbase]

/-- C7: with no configured provider base URL, `waCreateInstance` makes no
provider call; it synthesises the instance id (lower-cased dash-joined name
plus the random suffix) and a random token, persists them in the registry,
and answers 201 with a connect payload whose status is `waiting-qr` and
whose QR field is the placeholder marker; moreover, with no base URL every
provider-gateway handler (`waSetWebhook`, `waInstanceStatus`,
`waInstanceQR`, `waSendText`) runs in mock mode and never contacts the
provider. -/
theorem C7_unconfigured_create_is_mock (reg : WaRegistry)
    (name hOrg hFlow baseEnv rand6 rand32 : String) (pOk : Bool)
    (pInst pTok rand4 : String)
    (regB : WaRegistry) (instB : String) (decodeB : Bool)
    (urlB tokB orgB flowB : String) (pOkB : Bool)
    (instS tokS : String) (pOkS : Bool)
    (instQ tokQ : String) (qOk : Bool)
    (instT : String) (decT : Bool) (toT textT tokT : String) (pOkT : Bool) (stT : Nat)
    (hname : goTrimS name ≠ "") (hbase : uazConfigured baseEnv = false) :
    (waCreateInstance reg true name hOrg hFlow baseEnv rand6 rand32 pOk pInst pTok rand4).status = 201
    ∧ (waCreateInstance reg true name hOrg hFlow baseEnv rand6 rand32 pOk pInst pTok rand4).providerCalled = false
    ∧ (waCreateInstance reg true name hOrg hFlow baseEnv rand6 rand32 pOk pInst pTok rand4).instanceId
        = goToLowerStr (goReplaceAllStr name " " "-") ++ "-" ++ rand6
    ∧ (waCreateInstance reg true name hOrg hFlow baseEnv rand6 rand32 pOk pInst pTok rand4).token = rand32
    ∧ ((waCreateInstance reg true name hOrg hFlow baseEnv rand6 rand32 pOk pInst pTok rand4).registry
        (goToLowerStr (goReplaceAllStr name " " "-") ++ "-" ++ rand6)).map
          (fun row => (row.token, row.orgID, row.flowID))
        = some (rand32, parseIntHeader hOrg 1, parseIntHeader hFlow 1)
    ∧ (waCreateInstance reg true name hOrg hFlow baseEnv rand6 rand32 pOk pInst pTok rand4).connectStatus = "waiting-qr"
    ∧ (waCreateInstance reg true name hOrg hFlow baseEnv rand6 rand32 pOk pInst pTok rand4).connectQr
        = "UAZAPI_MOCK_" ++ (goToLowerStr (goReplaceAllStr name " " "-") ++ "-" ++ rand6)
    ∧ (waSetWebhook regB instB decodeB urlB tokB orgB flowB baseEnv pOkB).providerCalled = false
    ∧ (waInstanceStatus instS tokS baseEnv pOkS).2 = false
    ∧ (waInstanceQR instQ tokQ baseEnv qOk).2 = false
    ∧ (waSendText instT decT toT textT tokT baseEnv pOkT stT).2 = false := by
  refine ⟨?_, ?_, ?_, ?_, ?_, ?_, ?_,
    waSetWebhook_mock_no_provider regB instB decodeB urlB tokB orgB flowB baseEnv pOkB hbase,
    waInstanceStatus_mock_no_provider instS tokS baseEnv pOkS hbase,
    waInstanceQR_mock_no_provider instQ tokQ baseEnv qOk hbase,
    waSendText_mock_no_provider instT decT toT textT tokT baseEnv pOkT stT hbase⟩
  all_goals unfold waCreateInstance upsertWAInstance
  all_goals simp [hname, hbase]

/-- Witness for C7 at a concrete name and empty base URL. -/
theorem C7_unconfigured_create_is_mock_witness :
    (goTrimS "Minha Loja" ≠ "" ∧ uazConfigured "" = false)
    ∧ (waCreateInstance emptyWaRegistry true "Minha Loja" "" "" "" "abc123" "tokentokentokentokentokentokento" true "" "" "wxyz").status = 201
    ∧ (waCreateInstance emptyWaRegistry true "Minha Loja" "" "" "" "abc123" "tokentokentokentokentokentokento" true "" "" "wxyz").providerCalled = false
    ∧ (waCreateInstance emptyWaRegistry true "Minha Loja" "" "" "" "abc123" "tokentokentokentokentokentokento" true "" "" "wxyz").instanceId
        = goToLowerStr (goReplaceAllStr "Minha Loja" " " "-") ++ "-" ++ "abc123" := by
  have h := C7_unconfigured_create_is_mock emptyWaRegistry "Minha Loja" "" "" "" "abc123"
    "tokentokentokentokentokentokento" true "" "" "wxyz"
    emptyWaRegistry "" true "" "" "" "" true "" "" true "" "" true "" true "" "" "" true 200
    (by decide) (by decide)
  exact ⟨⟨by decide, by decide⟩, h.1, h.2.1, h.2.2.1⟩
